import Mathlib

/-!
Shallow embedding of the core of the `roastme` photo-roasting web app:
the OpenAI client (`src/services/openaiClient.js`), the CORS-strategy
dispatcher (`src/utils/corsProxy.js`), the configuration constants
(`src/utils/config.js`) and the file validator
(`src/services/fileValidator.js`).

JavaScript conventions modelled explicitly:
* an absent (`undefined`) value is `Option.none`; a JS string is falsy
  exactly when it is empty; `x || d` on a number is the default `d` when
  `x` is absent or `0`; on a string, when it is absent or empty;
* a JS `Promise` object is truthy regardless of its eventual value;
* machine floats that only ever hold exact decimal constants
  (temperature `0.9`, cost rate `0.00001`, millisecond durations)
  are modelled as rationals.

The transport (the `corsProxy.makeRequest` boundary that
`makeRequestWithRetry` calls) is a parameter: each attempt either
yields a parsed HTTP response or throws an error carrying an optional
message, exactly the two behaviours the client distinguishes.
-/

namespace Roastme

set_option autoImplicit false

/-! ## Configuration constants (`src/utils/config.js`) -/

/-- `API_CONFIG.OPENAI_MODEL`. -/
def OPENAI_MODEL : String := "gpt-4o"

/-- `API_CONFIG.MAX_TOKENS`. -/
def MAX_TOKENS : Nat := 300

/-- `API_CONFIG.TEMPERATURE` (0.9). -/
def TEMPERATURE : ℚ := 9 / 10

/-- `UPLOAD_CONSTRAINTS.MAX_FILE_SIZE_BYTES` (5 MiB). -/
def MAX_FILE_SIZE_BYTES : Nat := 5 * 1024 * 1024

/-- `UPLOAD_CONSTRAINTS.SUPPORTED_FORMATS`. -/
def SUPPORTED_FORMATS : List String :=
  ["image/jpeg", "image/png", "image/gif", "image/webp"]

/-! ## JavaScript helpers -/

/-- `sub` occurs as a prefix of `l` (helper for substring search). -/
def startsWithList : List Char → List Char → Bool
  | [], _ => true
  | _ :: _, [] => false
  | c :: cs, d :: ds => c = d && startsWithList cs ds

/-- `sub` occurs as a contiguous run inside `l`
(JS `String.prototype.includes`). -/
def containsSub (l sub : List Char) : Bool :=
  match l with
  | [] => sub.isEmpty
  | _ :: rest => startsWithList sub l || containsSub rest sub

/-- JS `s.includes(sub)`. -/
def strIncludes (s sub : String) : Bool :=
  containsSub s.data sub.data

/-- JS `s.startsWith(pre)`. -/
def jsStartsWith (s pre : String) : Bool :=
  startsWithList pre.data s.data

/-- The whitespace characters JS `trim` removes (for the ASCII texts
this client handles). -/
def isJsWhitespace (c : Char) : Bool :=
  c = ' ' || c = '\t' || c = '\n' || c = '\r'

/-- JS `s.trim()` on a character list: strip whitespace from both
ends. -/
def trimChars (l : List Char) : List Char :=
  ((l.dropWhile isJsWhitespace).reverse.dropWhile isJsWhitespace).reverse

/-- JS `s.trim()`. -/
def jsTrim (s : String) : String :=
  ⟨trimChars s.data⟩

/-- JS `x || d` for an optional number (`0` and `undefined` are falsy). -/
def jsOrNat (v : Option Nat) (d : Nat) : Nat :=
  match v with
  | some n => if n = 0 then d else n
  | none => d

/-- JS `x || d` for an optional rational (`0` and `undefined` are falsy). -/
def jsOrRat (v : Option ℚ) (d : ℚ) : ℚ :=
  match v with
  | some q => if q = 0 then d else q
  | none => d

/-- JS `x || d` for an optional string (`""` and `undefined` are falsy). -/
def jsOrStr (v : Option String) (d : Option String) : Option String :=
  match v with
  | some s => if s.isEmpty then d else some s
  | none => d

/-- A JS `Promise` wrapping an eventual value. -/
structure JsPromise (α : Type) where
  val : α
  deriving DecidableEq

/-- A JS `Promise` object is truthy no matter what it resolves to. -/
def jsTruthy {α : Type} (_p : JsPromise α) : Bool := true

/-! ## File validator (`src/services/fileValidator.js`) -/

/-- The file descriptor the validator inspects: a `File`-like object
exposing a name, a byte size and a declared MIME type. -/
structure JsFile where
  name : String
  size : Nat
  type : String
  deriving DecidableEq

/-- Outcome of a validator check: `isValid` plus, on failure, the error
kind and message.  (The `ok` outcome of `validateFile` additionally
carries a sanitized name and a file-info echo in the source; those
extra metadata fields play no role in any validation verdict and are
not modelled.) -/
structure VResult where
  isValid : Bool
  errType : Option String := none
  errMessage : Option String := none
  deriving DecidableEq

/-- `FileValidator.validateFileSize`: empty file, then 5 MiB cap. -/
def validateFileSize (file : JsFile) : VResult :=
  if file.size = 0 then
    ⟨false, some "file_invalid", some "File is empty or corrupted"⟩
  else if file.size > MAX_FILE_SIZE_BYTES then
    ⟨false, some "file_size",
      some "File size exceeds 5MB limit. Please choose a smaller image."⟩
  else
    ⟨true, none, none⟩

/-- `FileValidator.validateFileFormat`: missing/empty MIME type, then
membership in the supported list. -/
def validateFileFormat (file : JsFile) : VResult :=
  if file.type.isEmpty then
    ⟨false, some "file_format",
      some "Please upload JPEG, PNG, GIF, or WebP images only."⟩
  else if ¬ SUPPORTED_FORMATS.contains file.type then
    ⟨false, some "file_format",
      some "Please upload JPEG, PNG, GIF, or WebP images only."⟩
  else
    ⟨true, none, none⟩

/-- `FileValidator.checkMagicNumbers`: the source returns `true`
unconditionally ("Simplified magic number check for demo"). -/
def checkMagicNumbers : Bool := true

/-- `FileValidator.validateFile`: size check, then format check, then
the asynchronous header check.  `headerReadOk` models whether the
`FileReader` read of the first four bytes succeeds (an I/O fact of the
environment); when it does, `checkMagicNumbers` accepts, so the header
check can only fail on a read error. -/
def validateFile (file : JsFile) (headerReadOk : Bool) : VResult :=
  let sizeCheck := validateFileSize file
  if ¬ sizeCheck.isValid then sizeCheck
  else
    let formatCheck := validateFileFormat file
    if ¬ formatCheck.isValid then formatCheck
    else if ¬ headerReadOk then
      ⟨false, some "file_invalid", some "Unable to read file header"⟩
    else if checkMagicNumbers then ⟨true, none, none⟩
    else ⟨false, some "file_invalid", some "File header does not match file type"⟩

/-! ## CORS strategy dispatcher (`src/utils/corsProxy.js`) -/

/-- `PROXY_STRATEGIES`: `direct`, the public CORS relay (`cors_proxy`,
the spec's RelayProxy), the first-party backend (`custom`, the spec's
BackendProxy), and `mock`. -/
inductive ProxyStrategy where
  | direct
  | corsRelay
  | custom
  | mock
  deriving DecidableEq

/-- `CorsProxy.isCustomProxyAvailable`: an `async` method, so its call
expression evaluates to a `Promise` of the probe's eventual boolean
outcome, not the boolean itself. -/
def isCustomProxyAvailable (probeOk : Bool) : JsPromise Bool :=
  ⟨probeOk⟩

/-- `CorsProxy.detectBestStrategy`.  The source tests
`if (this.isCustomProxyAvailable())` without awaiting, so the branch
condition is the truthiness of the `Promise` object itself. -/
def detectBestStrategy (isTestEnv : Bool) (probeOk : Bool) (hostname : String) :
    ProxyStrategy :=
  if isTestEnv then .mock
  else if jsTruthy (isCustomProxyAvailable probeOk) then .custom
  else if hostname = "localhost" ∨ hostname = "127.0.0.1" then .corsRelay
  else .corsRelay

/-! ## OpenAI client (`src/services/openaiClient.js`): data model -/

/-- The `error` object carried by a failed roast result. -/
structure ErrorInfo where
  type : String
  message : String
  retryAfterSeconds : Option Nat := none
  deriving DecidableEq

/-- A roast generation result as returned by `generateRoast` and its
helpers: a `success` flag, and optional `roastText`,
`processingTimeMs` and `error` fields (absent = `undefined`). -/
structure RoastResult where
  success : Bool
  roastText : Option String := none
  processingTimeMs : Option Nat := none
  error : Option ErrorInfo := none
  deriving DecidableEq

/-- The client's mutable `usageStats` record.  Response times are
whole milliseconds; the estimated cost in dollars is an exact
rational. -/
structure UsageStats where
  totalRequests : Nat
  totalTokens : Nat
  errorCount : Nat
  totalResponseTime : Nat
  estimatedCost : ℚ
  deriving DecidableEq

/-- The constructor's initial `usageStats`. -/
def initialUsageStats : UsageStats := ⟨0, 0, 0, 0, 0⟩

/-- The snapshot returned by `getUsageStats`. -/
structure UsageSnapshot where
  totalRequests : Nat
  totalTokens : Nat
  errorRate : ℚ
  averageResponseTime : ℚ
  estimatedCost : ℚ
  deriving DecidableEq

/-- Generation options (`options` argument of `generateRoast`). -/
structure RoastOptions where
  persona : Option String := none
  customPrompt : Option String := none
  maxTokens : Option Nat := none
  temperature : Option ℚ := none
  deriving DecidableEq

/-- The request body built by `buildRequestBody`: model identifier, the
single user message (text part plus image-URL part), `max_tokens` and
`temperature`. -/
structure RequestBody where
  model : String
  promptText : Option String
  imageUrl : String
  max_tokens : Nat
  temperature : ℚ
  deriving DecidableEq

/-- The parts of a parsed JSON response body the client reads:
`choices[0]?.message?.content`, `usage.total_tokens` and
`error.code`; each absent when the body lacks it. -/
structure ApiBody where
  content : Option String := none
  usageTokens : Option Nat := none
  errorCode : Option String := none
  deriving DecidableEq

/-- An HTTP response as the client sees it: `ok` flag, `status`, and
the parsed JSON body. -/
structure ApiResponse where
  ok : Bool
  status : Nat
  body : ApiBody
  deriving DecidableEq

/-- One transport call (`corsProxy.makeRequest`) either resolves to a
response or throws an error with an optional message. -/
inductive TransportOutcome where
  | resp (r : ApiResponse)
  | err (msg : Option String)
  deriving DecidableEq

/-- A transport environment: the outcome of each successive call, as a
function of the request body sent and the 0-based attempt index. -/
def Transport : Type := RequestBody → Nat → TransportOutcome

/-! ## OpenAI client: functions -/

/-- `OpenAIClient.validateInput`: `none` when valid, otherwise the
rejection error.  A missing argument is the empty string (falsy); the
size ceiling `length > 10 * 1024 * 1024 * 1.33` is stated scaled by
100 to stay in exact integer arithmetic
(`1048576000 * 1.33 = 1394606080`). -/
def validateInput (base64Image : String) : Option ErrorInfo :=
  if base64Image.isEmpty then
    some ⟨"invalid_input", "No image provided", none⟩
  else if ¬ jsStartsWith base64Image "data:image/" then
    some ⟨"invalid_input", "Invalid base64 image format", none⟩
  else if 100 * base64Image.data.length > 1394606080 then
    some ⟨"image_too_large", "Image too large for processing", none⟩
  else
    none

/-- The persona table of `getPersonaPrompt`.  The nine keys are exactly
those of the source; the prompt texts are multi-line natural-language
strings whose content no component depends on, abbreviated here to
distinct short stand-ins (only the key set and the value identity per
key matter to any property). -/
def personas : List (String × String) :=
  [("virat-kohli", "persona prompt: virat-kohli"),
   ("arnab-goswami", "persona prompt: arnab-goswami"),
   ("rajinikanth", "persona prompt: rajinikanth"),
   ("shashi-tharoor", "persona prompt: shashi-tharoor"),
   ("bhuvan-bam", "persona prompt: bhuvan-bam"),
   ("karan-johar", "persona prompt: karan-johar"),
   ("sunil-grover", "persona prompt: sunil-grover"),
   ("jackie-shroff", "persona prompt: jackie-shroff"),
   ("raghu-roadies", "persona prompt: raghu-roadies")]

/-- `OpenAIClient.getPersonaPrompt(persona = 'kapil-sharma')`: the JS
default parameter replaces only an `undefined` argument; the lookup
result falls back to `personas['kapil-sharma']` — which is itself
`undefined`, since the table has no such key. -/
def getPersonaPrompt (persona : Option String) : Option String :=
  let key := persona.getD "kapil-sharma"
  match personas.lookup key with
  | some p => some p
  | none => personas.lookup "kapil-sharma"

/-- `OpenAIClient.buildRequestBody`. -/
def buildRequestBody (base64Image : String) (options : RoastOptions) :
    RequestBody :=
  { model := OPENAI_MODEL
    promptText := jsOrStr options.customPrompt (getPersonaPrompt options.persona)
    imageUrl := base64Image
    max_tokens := jsOrNat options.maxTokens MAX_TOKENS
    temperature := jsOrRat options.temperature TEMPERATURE }

/-- `OpenAIClient.shouldRetry`: retry unless the error message contains
`"401"` or `"400"` (a missing message retries). -/
def shouldRetry (msg : Option String) : Bool :=
  !(match msg with | some m => strIncludes m "401" | none => false) &&
  !(match msg with | some m => strIncludes m "400" | none => false)

/-- What a `makeRequestWithRetry` call produced: the resolved response
or the finally-thrown error, together with the number of transport
attempts made and the list of backoff delays (ms) slept between them. -/
structure RetryOutcome where
  result : Except (Option String) ApiResponse
  attempts : Nat
  delays : List Nat

/-- Recursion core of `makeRequestWithRetry`: `idx` is the attempt
index, `retryCount` the source's counter, and `remaining` the number of
retries still allowed (`maxRetries - retryCount`, so `retryCount <
maxRetries` is `remaining > 0`).  The backoff before a retry is
`2 ^ retryCount * 1000` ms. -/
def makeRequestWithRetryAux (transport : Transport) (body : RequestBody) :
    Nat → Nat → Nat → RetryOutcome
  | idx, retryCount, remaining =>
    match transport body idx with
    | .resp r => ⟨.ok r, 1, []⟩
    | .err e =>
      match remaining with
      | 0 => ⟨.error e, 1, []⟩
      | rem + 1 =>
        if shouldRetry e then
          let sub := makeRequestWithRetryAux transport body (idx + 1) (retryCount + 1) rem
          ⟨sub.result, sub.attempts + 1, (2 ^ retryCount * 1000) :: sub.delays⟩
        else ⟨.error e, 1, []⟩

/-- `OpenAIClient.makeRequestWithRetry` with its defaults
(`retryCount = 0`, `maxRetries = 2`). -/
def makeRequestWithRetry (transport : Transport) (body : RequestBody) :
    RetryOutcome :=
  makeRequestWithRetryAux transport body 0 0 2

/-! ### HTML tag stripping (`roastText.replace(/<[^>]*>/g, '')`) -/

/-- Drop characters up to and including the first `'>'` (the tail of a
regex match `<[^>]*>`: the greedy `[^>]*` stops at the first `'>'`). -/
def dropThroughGt : List Char → List Char
  | [] => []
  | c :: rest => if c = '>' then rest else dropThroughGt rest

/-- Fuel-indexed scanner for the global replacement of `/<[^>]*>/` by
the empty string: at a `'<'` that is followed by some `'>'`, the
leftmost match runs through the first such `'>'` and is dropped;
every other character is kept and scanning resumes after it.  The
fuel (an upper bound on the input length) only forces structural
termination. -/
def stripTagsFuel : Nat → List Char → List Char
  | 0, l => l
  | _ + 1, [] => []
  | fuel + 1, c :: rest =>
    if c = '<' && rest.contains '>' then stripTagsFuel fuel (dropThroughGt rest)
    else c :: stripTagsFuel fuel rest

/-- `s.replace(/<[^>]*>/g, '')` on a character list. -/
def stripTags (l : List Char) : List Char :=
  stripTagsFuel l.length l

/-- The client's sanitization of roast text. -/
def sanitizeText (s : String) : String :=
  ⟨stripTags s.data⟩

/-- A string contains an HTML-like tag sequence: some `'<'` is followed
(anywhere later) by a `'>'` — the condition for `/<[^>]*>/` to match. -/
def hasLtGt : List Char → Bool
  | [] => false
  | c :: rest => (c = '<' && rest.contains '>') || hasLtGt rest

/-- `OpenAIClient.processSuccessResponse`: a missing or falsy (empty)
`content` is an invalid response; whitespace-only content is an empty
response; otherwise the trimmed, tag-stripped text is returned as a
success carrying the processing time. -/
def processSuccessResponse (body : ApiBody) (processingTime : Nat) : RoastResult :=
  match body.content with
  | none =>
    { success := false
      error := some ⟨"invalid_response", "Invalid API response format", none⟩ }
  | some c =>
    if c.isEmpty then
      { success := false
        error := some ⟨"invalid_response", "Invalid API response format", none⟩ }
    else
      let roastText := jsTrim c
      if roastText.data.isEmpty then
        { success := false
          error := some ⟨"empty_response", "Empty roast content received", none⟩ }
      else
        { success := true
          roastText := some (sanitizeText roastText)
          processingTimeMs := some processingTime }

/-- `OpenAIClient.processErrorResponse`: the `switch` on the HTTP
status. -/
def processErrorResponse (status : Nat) (errorCode : Option String)
    (processingTime : Nat) : RoastResult :=
  if status = 429 then
    { success := false
      processingTimeMs := some processingTime
      error := some ⟨"rate_limit",
        "Rate limit exceeded. Please wait before trying again.", some 60⟩ }
  else if status = 401 then
    { success := false
      processingTimeMs := some processingTime
      error := some ⟨"api_error", "Invalid API key provided", none⟩ }
  else if status = 400 then
    if errorCode = some "content_policy_violation" then
      { success := false
        processingTimeMs := some processingTime
        error := some ⟨"content_policy", "Content violates safety guidelines", none⟩ }
    else
      { success := false
        processingTimeMs := some processingTime
        error := some ⟨"api_error", "Bad request to API", none⟩ }
  else if status = 503 then
    { success := false
      processingTimeMs := some processingTime
      error := some ⟨"service_unavailable",
        "OpenAI service temporarily unavailable", some 30⟩ }
  else
    { success := false
      processingTimeMs := some processingTime
      error := some ⟨"api_error", "Unknown API error occurred", none⟩ }

/-- `OpenAIClient.updateUsageStats`: always bump the request count and
accumulate the response time; on success add the reported tokens
(`usage.total_tokens || 0`) and the cost at `$0.00001` per token;
on failure bump the error count. -/
def updateUsageStats (stats : UsageStats) (responseTime : Nat) (success : Bool)
    (usageTokens : Option Nat) : UsageStats :=
  let base := { stats with
    totalRequests := stats.totalRequests + 1
    totalResponseTime := stats.totalResponseTime + responseTime }
  if success then
    { base with
      totalTokens := base.totalTokens + usageTokens.getD 0
      estimatedCost := base.estimatedCost + (usageTokens.getD 0 : ℚ) * (1 / 100000) }
  else
    { base with errorCount := base.errorCount + 1 }

/-- `OpenAIClient.getUsageStats`. -/
def getUsageStats (stats : UsageStats) : UsageSnapshot :=
  { totalRequests := stats.totalRequests
    totalTokens := stats.totalTokens
    errorRate :=
      if stats.totalRequests > 0 then
        (stats.errorCount : ℚ) / (stats.totalRequests : ℚ)
      else 0
    averageResponseTime :=
      if stats.totalRequests > 0 then
        stats.totalResponseTime / (stats.totalRequests : ℚ)
      else 0
    estimatedCost := stats.estimatedCost }

/-- Everything one `generateRoast` call produced: the returned result,
the usage stats afterwards, and the transport attempt count and
backoff delays observed. -/
structure GenOutcome where
  result : RoastResult
  stats : UsageStats
  attempts : Nat
  delays : List Nat
  requestBody : Option RequestBody
  deriving DecidableEq

/-- `OpenAIClient.generateRoast`.  `elapsed` is the wall-clock
processing time the code measures with `performance.now()` (an
environmental quantity: network latency plus the backoff sleeps);
`transport` is the `corsProxy.makeRequest` boundary. -/
def generateRoast (base64Image : String) (options : RoastOptions)
    (transport : Transport) (elapsed : Nat) (stats : UsageStats) : GenOutcome :=
  match validateInput base64Image with
  | some e => ⟨⟨false, none, none, some e⟩, stats, 0, [], none⟩
  | none =>
    let body := buildRequestBody base64Image options
    let retry := makeRequestWithRetry transport body
    match retry.result with
    | .ok r =>
      if r.ok then
        ⟨processSuccessResponse r.body elapsed,
          updateUsageStats stats elapsed true r.body.usageTokens,
          retry.attempts, retry.delays, some body⟩
      else
        ⟨processErrorResponse r.status r.body.errorCode elapsed,
          updateUsageStats stats elapsed false none,
          retry.attempts, retry.delays, some body⟩
    | .error _ =>
      if elapsed > 10000 then
        ⟨⟨false, none, some elapsed,
            some ⟨"timeout", "Request timed out after 10 seconds", none⟩⟩,
          updateUsageStats stats elapsed false none,
          retry.attempts, retry.delays, some body⟩
      else
        ⟨⟨false, none, some elapsed,
            some ⟨"network_error", "Network request failed", none⟩⟩,
          updateUsageStats stats elapsed false none,
          retry.attempts, retry.delays, some body⟩

end Roastme

namespace Roastme

/-! ## Helper lemmas -/

/-- Dropping through the first `'>'` never lengthens the list. -/
theorem dropThroughGt_length_le (l : List Char) :
    (dropThroughGt l).length ≤ l.length := by
  induction l with
  | nil => simp [dropThroughGt]
  | cons c rest ih =>
    by_cases h : c = '>'
    · simp [dropThroughGt, h]
    · simp only [dropThroughGt, if_neg h, List.length_cons]
      exact Nat.le_succ_of_le ih

/-- When a `'>'` is present, dropping through it strictly shortens the
list. -/
theorem dropThroughGt_length_lt (l : List Char) (h : l.contains '>' = true) :
    (dropThroughGt l).length < l.length := by
  induction l with
  | nil => simp at h
  | cons c rest ih =>
    by_cases hc : c = '>'
    · simp [dropThroughGt, hc]
    · have hrest : rest.contains '>' = true := by
        simp only [List.contains_cons, Bool.or_eq_true, beq_iff_eq] at h
        rcases h with h | h
        · exact absurd h.symm hc
        · exact h
      simp only [dropThroughGt, if_neg hc, List.length_cons]
      exact Nat.lt_succ_of_lt (ih hrest)

/-- Dropping through the first `'>'` yields a sublist of the input
(membership form). -/
theorem mem_dropThroughGt (l : List Char) (x : Char)
    (h : x ∈ dropThroughGt l) : x ∈ l := by
  induction l with
  | nil =>
    simp [dropThroughGt] at h
  | cons c rest ih =>
    by_cases hc : c = '>'
    · simp only [dropThroughGt, if_pos hc] at h
      exact List.mem_cons_of_mem c h
    · simp only [dropThroughGt, if_neg hc] at h
      exact List.mem_cons_of_mem c (ih h)

/-- Every character the tag scanner keeps came from its input. -/
theorem mem_stripTagsFuel (fuel : Nat) (l : List Char) (x : Char)
    (h : x ∈ stripTagsFuel fuel l) : x ∈ l := by
  induction fuel generalizing l with
  | zero =>
    rw [stripTagsFuel] at h
    exact h
  | succ f ih =>
    cases l with
    | nil =>
      simp [stripTagsFuel] at h
    | cons c rest =>
      by_cases hb : (c = '<' && rest.contains '>') = true
      · simp only [stripTagsFuel, if_pos hb] at h
        exact List.mem_cons_of_mem c (mem_dropThroughGt rest x (ih _ h))
      · simp only [stripTagsFuel, if_neg hb, List.mem_cons] at h
        rcases h with h | h
        · exact h ▸ List.mem_cons_self c rest
        · exact List.mem_cons_of_mem c (ih _ h)

/-- Bridge between the `Bool`-valued `List.contains` and membership. -/
theorem charContains_iff (l : List Char) (a : Char) :
    l.contains a = true ↔ a ∈ l := by
  simp [List.contains, List.elem_eq_mem]

/-- With enough fuel, the scanner's output never has a `'<'` followed
by a `'>'`: no residual text can match `/<[^>]*>/`. -/
theorem hasLtGt_stripTagsFuel (fuel : Nat) :
    ∀ l : List Char, l.length ≤ fuel → hasLtGt (stripTagsFuel fuel l) = false := by
  induction fuel with
  | zero =>
    intro l hl
    have : l = [] := List.eq_nil_of_length_eq_zero (Nat.le_zero.mp hl)
    subst this
    simp [stripTagsFuel, hasLtGt]
  | succ f ih =>
    intro l hl
    cases l with
    | nil => simp [stripTagsFuel, hasLtGt]
    | cons c rest =>
      have hrest : rest.length ≤ f := Nat.lt_succ_iff.mp hl
      by_cases hb : (c = '<' && rest.contains '>') = true
      · have hgt : rest.contains '>' = true := by
          have hb2 := hb
          simp only [Bool.and_eq_true] at hb2
          exact hb2.2
        have hdrop : (dropThroughGt rest).length ≤ f :=
          Nat.le_of_lt (Nat.lt_of_lt_of_le (dropThroughGt_length_lt rest hgt) hrest)
        simp only [stripTagsFuel, if_pos hb]
        exact ih (dropThroughGt rest) hdrop
      · simp only [stripTagsFuel, if_neg hb, hasLtGt, Bool.or_eq_false_iff]
        refine ⟨?_, ih rest hrest⟩
        by_cases hc : c = '<'
        · have hgt : rest.contains '>' = false := by
            cases hgtv : rest.contains '>' with
            | false => rfl
            | true => exact absurd (by rw [hc, hgtv]; decide) hb
          have hout : (stripTagsFuel f rest).contains '>' = false := by
            cases hov : (stripTagsFuel f rest).contains '>' with
            | false => rfl
            | true =>
              have hmem : '>' ∈ rest :=
                mem_stripTagsFuel f rest '>' ((charContains_iff _ _).mp hov)
              have hcontra := (charContains_iff rest '>').mpr hmem
              rw [hgt] at hcontra
              exact absurd hcontra Bool.false_ne_true
          rw [hout, Bool.and_false]
        · simp [hc]

/-- The sanitized text never contains a `<...>` tag sequence. -/
theorem hasLtGt_stripTags (l : List Char) : hasLtGt (stripTags l) = false :=
  hasLtGt_stripTagsFuel l.length l le_rfl

/-- `sanitizeText` output never contains a `<...>` tag sequence. -/
theorem hasLtGt_sanitizeText (s : String) :
    hasLtGt (sanitizeText s).data = false :=
  hasLtGt_stripTags s.data

end Roastme

namespace Roastme

/-- A first transport call that resolves makes `makeRequestWithRetry`
return it as the single attempt, with no backoff. -/
theorem makeRequestWithRetry_resp (transport : Transport) (body : RequestBody)
    (r : ApiResponse) (h0 : transport body 0 = .resp r) :
    makeRequestWithRetry transport body = ⟨.ok r, 1, []⟩ := by
  rw [makeRequestWithRetry, makeRequestWithRetryAux, h0]

/-- When the first three transport calls all throw retryable errors,
`makeRequestWithRetry` makes exactly three attempts with backoff
delays of 1000 ms and 2000 ms and rethrows the last error. -/
theorem makeRequestWithRetry_allfail (transport : Transport) (body : RequestBody)
    (m0 m1 m2 : Option String)
    (h0 : transport body 0 = .err m0) (hr0 : shouldRetry m0 = true)
    (h1 : transport body 1 = .err m1) (hr1 : shouldRetry m1 = true)
    (h2 : transport body 2 = .err m2) :
    makeRequestWithRetry transport body = ⟨.error m2, 3, [1000, 2000]⟩ := by
  rw [makeRequestWithRetry, makeRequestWithRetryAux, h0]
  simp only [hr0, if_true]
  rw [makeRequestWithRetryAux, h1]
  simp only [hr1, if_true]
  rw [makeRequestWithRetryAux, h2]
  simp

/-- `generateRoast` on input the validator rejects: the error is
returned bare and nothing else happens. -/
theorem generateRoast_invalid (img : String) (opts : RoastOptions)
    (transport : Transport) (elapsed : Nat) (stats : UsageStats) (e : ErrorInfo)
    (hv : validateInput img = some e) :
    generateRoast img opts transport elapsed stats =
      ⟨⟨false, none, none, some e⟩, stats, 0, [], none⟩ := by
  rw [generateRoast, hv]

/-- `generateRoast` when the first transport call resolves to a
response: one attempt, then success- or error-processing by `ok`. -/
theorem generateRoast_resp (img : String) (opts : RoastOptions)
    (transport : Transport) (elapsed : Nat) (stats : UsageStats) (r : ApiResponse)
    (hv : validateInput img = none)
    (h0 : transport (buildRequestBody img opts) 0 = .resp r) :
    generateRoast img opts transport elapsed stats =
      if r.ok then
        ⟨processSuccessResponse r.body elapsed,
          updateUsageStats stats elapsed true r.body.usageTokens,
          1, [], some (buildRequestBody img opts)⟩
      else
        ⟨processErrorResponse r.status r.body.errorCode elapsed,
          updateUsageStats stats elapsed false none,
          1, [], some (buildRequestBody img opts)⟩ := by
  rw [generateRoast, hv]
  simp only [makeRequestWithRetry_resp transport (buildRequestBody img opts) r h0]

/-- `generateRoast` when the transport throws every time with
retryable errors: three attempts, the 1s/2s backoff, and the
timeout/network classification on the measured elapsed time. -/
theorem generateRoast_allfail (img : String) (opts : RoastOptions)
    (transport : Transport) (elapsed : Nat) (stats : UsageStats)
    (m0 m1 m2 : Option String)
    (h0 : transport (buildRequestBody img opts) 0 = .err m0) (hr0 : shouldRetry m0 = true)
    (h1 : transport (buildRequestBody img opts) 1 = .err m1) (hr1 : shouldRetry m1 = true)
    (h2 : transport (buildRequestBody img opts) 2 = .err m2)
    (hv : validateInput img = none) :
    generateRoast img opts transport elapsed stats =
      if elapsed > 10000 then
        ⟨⟨false, none, some elapsed,
            some ⟨"timeout", "Request timed out after 10 seconds", none⟩⟩,
          updateUsageStats stats elapsed false none,
          3, [1000, 2000], some (buildRequestBody img opts)⟩
      else
        ⟨⟨false, none, some elapsed,
            some ⟨"network_error", "Network request failed", none⟩⟩,
          updateUsageStats stats elapsed false none,
          3, [1000, 2000], some (buildRequestBody img opts)⟩ := by
  rw [generateRoast, hv]
  simp only [makeRequestWithRetry_allfail transport (buildRequestBody img opts)
    m0 m1 m2 h0 hr0 h1 hr1 h2]

end Roastme

namespace Roastme

/-- Shape of every error-classification result: a failure carrying the
processing time and an error object, with no roast text. -/
theorem processErrorResponse_shape (status : Nat) (errorCode : Option String)
    (pt : Nat) :
    (processErrorResponse status errorCode pt).success = false ∧
    (processErrorResponse status errorCode pt).processingTimeMs = some pt ∧
    (processErrorResponse status errorCode pt).roastText = none ∧
    (processErrorResponse status errorCode pt).error.isSome = true := by
  rw [processErrorResponse]
  split_ifs <;> simp

/-- Shape of every success-processing result: either a success carrying
text and the processing time, or an invalid/empty-response failure
carrying neither text nor time. -/
theorem processSuccessResponse_shape (body : ApiBody) (pt : Nat) :
    ((processSuccessResponse body pt).success = true ∧
      (processSuccessResponse body pt).roastText.isSome = true ∧
      (processSuccessResponse body pt).processingTimeMs = some pt ∧
      (processSuccessResponse body pt).error = none) ∨
    ((processSuccessResponse body pt).success = false ∧
      (processSuccessResponse body pt).roastText = none ∧
      (processSuccessResponse body pt).processingTimeMs = none ∧
      ∃ e, (processSuccessResponse body pt).error = some e ∧
        (e.type = "invalid_response" ∨ e.type = "empty_response")) := by
  rw [processSuccessResponse]
  cases body.content with
  | none => right; simp
  | some c =>
    by_cases h1 : c.isEmpty
    · right; simp [h1]
    · by_cases h2 : (jsTrim c).data.isEmpty
      · right; simp [h1, h2]
      · left; simp [h1, h2]

/-! ## Concrete environments used in witnesses and counterexamples -/

/-- A transport that always throws a retryable network-level error. -/
def failingTransport : Transport := fun _ _ => .err (some "connection reset")

/-- A transport that always throws an error with no message (retryable:
`shouldRetry` treats a missing message as retryable). -/
def failingTransportNoMsg : Transport := fun _ _ => .err none

/-- A transport whose first response is HTTP 401 (`ok = false`). -/
def resp401Transport : Transport := fun _ _ => .resp ⟨false, 401, {}⟩

/-- A transport returning HTTP 429 with an empty error body. -/
def resp429Transport : Transport := fun _ _ => .resp ⟨false, 429, {}⟩

/-- A transport returning a 2xx completion whose text is `"Nice hat."`
and whose reported usage is `t` tokens. -/
def successTransport (t : Nat) : Transport :=
  fun _ _ => .resp ⟨true, 200, ⟨some "Nice hat.", some t, none⟩⟩

/-- A transport returning a 2xx completion whose text is a bare HTML
tag. -/
def tagOnlyTransport : Transport :=
  fun _ _ => .resp ⟨true, 200, ⟨some "<b>", some 5, none⟩⟩

/-- A transport returning a 2xx completion containing markup between
words. -/
def taggedTextTransport : Transport :=
  fun _ _ => .resp ⟨true, 200, ⟨some "Nice <b>hat</b>.", some 5, none⟩⟩

/-- A short valid data-URI image input. -/
def sampleImage : String := "data:image/p"

/-! ## Claims -/

/-- Claim C1 (amended): if every transport call throws a retryable
network-level error, `generate` makes exactly 3 total transport
attempts (1 initial + 2 retries), waiting 1s before the second attempt
and 2s before the third, and then returns a Failure of kind
NetworkError — provided the measured elapsed time is within the
10-second SLA boundary; when the elapsed time exceeds 10s the same run
returns kind Timeout instead. -/
theorem C1_retry_bound (img : String) (opts : RoastOptions)
    (transport : Transport) (elapsed : Nat) (stats : UsageStats)
    (hv : validateInput img = none)
    (hfail : ∀ n, ∃ msg, transport (buildRequestBody img opts) n = .err msg ∧
      shouldRetry msg = true) :
    (generateRoast img opts transport elapsed stats).attempts = 3 ∧
    (generateRoast img opts transport elapsed stats).delays = [1000, 2000] ∧
    (elapsed ≤ 10000 →
      (generateRoast img opts transport elapsed stats).result.error =
        some ⟨"network_error", "Network request failed", none⟩) ∧
    (10000 < elapsed →
      (generateRoast img opts transport elapsed stats).result.error =
        some ⟨"timeout", "Request timed out after 10 seconds", none⟩) := by
  obtain ⟨m0, h0, hr0⟩ := hfail 0
  obtain ⟨m1, h1, hr1⟩ := hfail 1
  obtain ⟨m2, h2, _⟩ := hfail 2
  rw [generateRoast_allfail img opts transport elapsed stats m0 m1 m2 h0 hr0 h1 hr1 h2 hv]
  by_cases he : elapsed > 10000
  · rw [if_pos he]
    refine ⟨rfl, rfl, ?_, fun _ => rfl⟩
    intro hle
    exact absurd he (Nat.not_lt.mpr hle)
  · rw [if_neg he]
    refine ⟨rfl, rfl, fun _ => rfl, ?_⟩
    intro hlt
    exact absurd hlt he

/-- Witness for C1: a concrete all-retryable-failure run with elapsed
time 5000 ms makes 3 attempts, sleeps 1s then 2s, and returns a
network error. -/
theorem C1_witness :
    (generateRoast sampleImage {} failingTransport 5000 initialUsageStats).attempts = 3 ∧
    (generateRoast sampleImage {} failingTransport 5000 initialUsageStats).delays = [1000, 2000] ∧
    (generateRoast sampleImage {} failingTransport 5000 initialUsageStats).result.error =
      some ⟨"network_error", "Network request failed", none⟩ :=
  have h := C1_retry_bound sampleImage {} failingTransport 5000 initialUsageStats
    (by decide) (fun n => ⟨some "connection reset", rfl, by decide⟩)
  ⟨h.1, h.2.1, h.2.2.1 (by decide)⟩

/-- Counterexample to C1 as stated: with every transport call throwing
a retryable network error but a measured elapsed time of 20000 ms, the
code returns kind `timeout`, not `network_error` (while still making
3 attempts). -/
theorem C1_counterexample :
    shouldRetry (some "connection reset") = true ∧
    (generateRoast sampleImage {} failingTransport 20000 initialUsageStats).attempts = 3 ∧
    (generateRoast sampleImage {} failingTransport 20000 initialUsageStats).result.error =
      some ⟨"timeout", "Request timed out after 10 seconds", none⟩ ∧
    (generateRoast sampleImage {} failingTransport 20000 initialUsageStats).result.error ≠
      some ⟨"network_error", "Network request failed", none⟩ := by
  refine ⟨by decide, by decide, by decide, by decide⟩

/-- Claim C2: a transport response that is not `ok` — HTTP 401 and
every other policy-level rejection — is returned after exactly one
transport attempt, classified by `processErrorResponse`, with no
automatic retry and no backoff. -/
theorem C2_no_retry_on_policy (img : String) (opts : RoastOptions)
    (transport : Transport) (elapsed : Nat) (stats : UsageStats) (r : ApiResponse)
    (hv : validateInput img = none)
    (h0 : transport (buildRequestBody img opts) 0 = .resp r)
    (hr : r.ok = false) :
    (generateRoast img opts transport elapsed stats).attempts = 1 ∧
    (generateRoast img opts transport elapsed stats).delays = [] ∧
    (generateRoast img opts transport elapsed stats).result =
      processErrorResponse r.status r.body.errorCode elapsed := by
  rw [generateRoast_resp img opts transport elapsed stats r hv h0, if_neg]
  · exact ⟨rfl, rfl, rfl⟩
  · rw [hr]; exact Bool.false_ne_true

/-- Witness for C2: HTTP 401 on the first call gives exactly one
attempt and the invalid-key `api_error` policy failure. -/
theorem C2_witness :
    (generateRoast sampleImage {} resp401Transport 100 initialUsageStats).attempts = 1 ∧
    (generateRoast sampleImage {} resp401Transport 100 initialUsageStats).delays = [] ∧
    (generateRoast sampleImage {} resp401Transport 100 initialUsageStats).result.error =
      some ⟨"api_error", "Invalid API key provided", none⟩ :=
  have h := C2_no_retry_on_policy sampleImage {} resp401Transport 100 initialUsageStats
    ⟨false, 401, {}⟩ (by decide) rfl rfl
  ⟨h.1, h.2.1, by rw [h.2.2]; decide⟩

/-- Claim C3 (code bug): the persona table has no `kapil-sharma` entry,
so both an omitted persona key and any unknown key make
`getPersonaPrompt` return `undefined` rather than the fixed default
prompt string the lookup is documented to return. -/
theorem C3_default_persona_missing :
    getPersonaPrompt none = none ∧
    getPersonaPrompt (some "unknown-persona") = none ∧
    getPersonaPrompt (some "kapil-sharma") = none ∧
    getPersonaPrompt (some "rajinikanth") = some "persona prompt: rajinikanth" := by
  refine ⟨by decide, by decide, by decide, by decide⟩

end Roastme

namespace Roastme

/-- `generateRoast` after a passed input validation, expressed over the
dispatch outcome. -/
theorem generateRoast_eq (img : String) (opts : RoastOptions)
    (transport : Transport) (elapsed : Nat) (stats : UsageStats)
    (hv : validateInput img = none) :
    generateRoast img opts transport elapsed stats =
      let body := buildRequestBody img opts
      let retry := makeRequestWithRetry transport body
      match retry.result with
      | .ok r =>
        if r.ok then
          ⟨processSuccessResponse r.body elapsed,
            updateUsageStats stats elapsed true r.body.usageTokens,
            retry.attempts, retry.delays, some body⟩
        else
          ⟨processErrorResponse r.status r.body.errorCode elapsed,
            updateUsageStats stats elapsed false none,
            retry.attempts, retry.delays, some body⟩
      | .error _ =>
        if elapsed > 10000 then
          ⟨⟨false, none, some elapsed,
              some ⟨"timeout", "Request timed out after 10 seconds", none⟩⟩,
            updateUsageStats stats elapsed false none,
            retry.attempts, retry.delays, some body⟩
        else
          ⟨⟨false, none, some elapsed,
              some ⟨"network_error", "Network request failed", none⟩⟩,
            updateUsageStats stats elapsed false none,
            retry.attempts, retry.delays, some body⟩ := by
  rw [generateRoast, hv]

/-- Input-validation rejections carry one of the two input error
kinds. -/
theorem validateInput_type (img : String) (e : ErrorInfo)
    (h : validateInput img = some e) :
    e.type = "invalid_input" ∨ e.type = "image_too_large" := by
  rw [validateInput] at h
  split_ifs at h <;> cases h <;> simp

/-- A transport returning a 2xx response whose body lacks the
completion-text field. -/
def invalidBodyTransport : Transport := fun _ _ => .resp ⟨true, 200, {}⟩

/-- Iterated successful `generateRoast` calls, one per reported token
count, threading the usage stats. -/
def runSuccessCalls (ts : List Nat) (stats : UsageStats) : UsageStats :=
  ts.foldl
    (fun s t => (generateRoast sampleImage {} (successTransport t) 100 s).stats)
    stats

/-- One successful call updates the stats as a success with the
reported tokens. -/
theorem successCall_stats (t : Nat) (stats : UsageStats) :
    (generateRoast sampleImage {} (successTransport t) 100 stats).stats =
      updateUsageStats stats 100 true (some t) := by
  rw [generateRoast_resp sampleImage {} (successTransport t) 100 stats
    ⟨true, 200, ⟨some "Nice hat.", some t, none⟩⟩ (by decide) rfl]
  rfl

/-- Counters after a run of successful calls: tokens accumulate, the
error count is untouched, requests count the calls. -/
theorem runSuccessCalls_fields (ts : List Nat) : ∀ stats : UsageStats,
    (runSuccessCalls ts stats).totalTokens = stats.totalTokens + ts.sum ∧
    (runSuccessCalls ts stats).errorCount = stats.errorCount ∧
    (runSuccessCalls ts stats).totalRequests = stats.totalRequests + ts.length := by
  induction ts with
  | nil => intro stats; simp [runSuccessCalls]
  | cons t rest ih =>
    intro stats
    have hstep : runSuccessCalls (t :: rest) stats =
        runSuccessCalls rest (updateUsageStats stats 100 true (some t)) := by
      rw [runSuccessCalls, List.foldl_cons, successCall_stats, runSuccessCalls]
    rw [hstep]
    obtain ⟨h1, h2, h3⟩ := ih (updateUsageStats stats 100 true (some t))
    refine ⟨?_, ?_, ?_⟩
    · rw [h1]; simp [updateUsageStats]; omega
    · rw [h2]; simp [updateUsageStats]
    · rw [h3]; simp [updateUsageStats]; omega

end Roastme

namespace Roastme

/-- Claim C4 (amended): usage counters are updated on every terminal
outcome that passes input validation — request count incremented and
elapsed time accumulated; when the transport returned a 2xx response
(including the invalid/empty-response failure outcomes, which the code
books as successes) the reported tokens and the cost at the fixed
per-token rate are added and the error count is left unchanged; on
non-2xx responses and on thrown transport errors the error count is
incremented.  Input-validation rejections update no counters at all.
After N successful calls with token usages t_1..t_n,
`getUsageStats().totalTokens` is their sum and `errorRate` is 0, and
`errorRate` equals `errorCount/totalRequests` whenever any request was
counted (0.5 after one success and one failure). -/
theorem C4_usage_accounting :
    (∀ (img : String) (opts : RoastOptions) (transport : Transport)
        (elapsed : Nat) (stats : UsageStats) (e : ErrorInfo),
      validateInput img = some e →
      (generateRoast img opts transport elapsed stats).stats = stats) ∧
    (∀ (img : String) (opts : RoastOptions) (transport : Transport)
        (elapsed : Nat) (stats : UsageStats) (r : ApiResponse),
      validateInput img = none →
      transport (buildRequestBody img opts) 0 = .resp r → r.ok = true →
      (generateRoast img opts transport elapsed stats).stats =
        ⟨stats.totalRequests + 1, stats.totalTokens + r.body.usageTokens.getD 0,
          stats.errorCount, stats.totalResponseTime + elapsed,
          stats.estimatedCost + (r.body.usageTokens.getD 0 : ℚ) * (1 / 100000)⟩) ∧
    (∀ (img : String) (opts : RoastOptions) (transport : Transport)
        (elapsed : Nat) (stats : UsageStats) (r : ApiResponse),
      validateInput img = none →
      transport (buildRequestBody img opts) 0 = .resp r → r.ok = false →
      (generateRoast img opts transport elapsed stats).stats =
        ⟨stats.totalRequests + 1, stats.totalTokens, stats.errorCount + 1,
          stats.totalResponseTime + elapsed, stats.estimatedCost⟩) ∧
    (∀ (img : String) (opts : RoastOptions) (transport : Transport)
        (elapsed : Nat) (stats : UsageStats) (m : Option String),
      validateInput img = none →
      (makeRequestWithRetry transport (buildRequestBody img opts)).result = .error m →
      (generateRoast img opts transport elapsed stats).stats =
        ⟨stats.totalRequests + 1, stats.totalTokens, stats.errorCount + 1,
          stats.totalResponseTime + elapsed, stats.estimatedCost⟩) ∧
    (∀ ts : List Nat,
      (runSuccessCalls ts initialUsageStats).totalTokens = ts.sum ∧
      (getUsageStats (runSuccessCalls ts initialUsageStats)).errorRate = 0) ∧
    (∀ stats : UsageStats, 0 < stats.totalRequests →
      (getUsageStats stats).errorRate =
        (stats.errorCount : ℚ) / (stats.totalRequests : ℚ)) ∧
    (getUsageStats (generateRoast sampleImage {} failingTransport 100
        (generateRoast sampleImage {} (successTransport 50) 100
          initialUsageStats).stats).stats).errorRate = 1 / 2 := by
  refine ⟨?_, ?_, ?_, ?_, ?_, ?_, ?_⟩
  · intro img opts transport elapsed stats e hv
    rw [generateRoast_invalid img opts transport elapsed stats e hv]
  · intro img opts transport elapsed stats r hv h0 hok
    rw [generateRoast_resp img opts transport elapsed stats r hv h0, if_pos hok]
    simp [updateUsageStats]
  · intro img opts transport elapsed stats r hv h0 hok
    rw [generateRoast_resp img opts transport elapsed stats r hv h0,
      if_neg (by rw [hok]; exact Bool.false_ne_true)]
    simp [updateUsageStats]
  · intro img opts transport elapsed stats m hv hm
    rw [generateRoast_eq img opts transport elapsed stats hv]
    simp only [hm]
    by_cases he : elapsed > 10000
    · rw [if_pos he]; simp [updateUsageStats]
    · rw [if_neg he]; simp [updateUsageStats]
  · intro ts
    obtain ⟨h1, h2, h3⟩ := runSuccessCalls_fields ts initialUsageStats
    refine ⟨by rw [h1]; simp [initialUsageStats], ?_⟩
    rw [getUsageStats]
    by_cases hn : (runSuccessCalls ts initialUsageStats).totalRequests > 0
    · simp only [hn, if_pos, h2]
      simp [initialUsageStats]
    · simp [hn]
  · intro stats h
    simp [getUsageStats, h]
  · have hsucc := successCall_stats 50 initialUsageStats
    rw [generateRoast_allfail sampleImage {} failingTransport 100 _
      (some "connection reset") (some "connection reset") (some "connection reset")
      rfl (by decide) rfl (by decide) rfl (by decide)]
    rw [if_neg (by decide), hsucc]
    simp [getUsageStats, updateUsageStats, initialUsageStats]

/-- Witness for C4: a concrete validation-rejected call leaves the
stats untouched, and two successful calls with 50 and 67 reported
tokens accumulate 117 total tokens. -/
theorem C4_witness :
    (generateRoast "" {} failingTransport 100 initialUsageStats).stats = initialUsageStats ∧
    (runSuccessCalls [50, 67] initialUsageStats).totalTokens = 117 :=
  have h := C4_usage_accounting
  ⟨h.1 "" {} failingTransport 100 initialUsageStats
      ⟨"invalid_input", "No image provided", none⟩ (by decide),
    by rw [(h.2.2.2.2.1 [50, 67]).1]; decide⟩

/-- Counterexample to C4 as stated: an input-validation rejection is a
terminal Failure outcome, yet no counter is updated (request count
stays 0); and a 2xx response with an invalid body yields a Failure
outcome whose error count is not incremented (it is booked as a
success). -/
theorem C4_counterexample :
    (generateRoast "" {} failingTransport 100 initialUsageStats).result.success = false ∧
    (generateRoast "" {} failingTransport 100 initialUsageStats).stats.totalRequests = 0 ∧
    (generateRoast sampleImage {} invalidBodyTransport 100 initialUsageStats).result.success = false ∧
    (generateRoast sampleImage {} invalidBodyTransport 100 initialUsageStats).stats.errorCount = 0 ∧
    (generateRoast sampleImage {} invalidBodyTransport 100 initialUsageStats).stats.totalRequests = 1 := by
  refine ⟨by decide, by decide, by decide, by decide, by decide⟩

/-- Claim C5 (amended): every result of `generate` has exactly one
variant populated (text on success, an error object on failure), and
carries the elapsed processing time on every outcome except the
input-validation rejections and the invalid/empty-response outcomes,
which omit it. -/
theorem C5_result_shape (img : String) (opts : RoastOptions)
    (transport : Transport) (elapsed : Nat) (stats : UsageStats) :
    (((generateRoast img opts transport elapsed stats).result.success = true ∧
      (generateRoast img opts transport elapsed stats).result.roastText.isSome = true ∧
      (generateRoast img opts transport elapsed stats).result.error = none) ∨
     ((generateRoast img opts transport elapsed stats).result.success = false ∧
      (generateRoast img opts transport elapsed stats).result.roastText = none ∧
      (generateRoast img opts transport elapsed stats).result.error.isSome = true)) ∧
    ((generateRoast img opts transport elapsed stats).result.processingTimeMs = some elapsed ∨
     ((generateRoast img opts transport elapsed stats).result.processingTimeMs = none ∧
      (generateRoast img opts transport elapsed stats).result.success = false ∧
      ∃ e, (generateRoast img opts transport elapsed stats).result.error = some e ∧
        (e.type = "invalid_input" ∨ e.type = "image_too_large" ∨
         e.type = "invalid_response" ∨ e.type = "empty_response"))) := by
  cases hv : validateInput img with
  | some e =>
    rw [generateRoast_invalid img opts transport elapsed stats e hv]
    refine ⟨Or.inr ⟨rfl, rfl, rfl⟩, Or.inr ⟨rfl, rfl, e, rfl, ?_⟩⟩
    rcases validateInput_type img e hv with h | h
    · exact Or.inl h
    · exact Or.inr (Or.inl h)
  | none =>
    rw [generateRoast_eq img opts transport elapsed stats hv]
    cases hm : (makeRequestWithRetry transport (buildRequestBody img opts)).result with
    | ok r =>
      simp only [hm]
      by_cases hok : r.ok = true
      · rw [if_pos hok]
        rcases processSuccessResponse_shape r.body elapsed with
          ⟨h1, h2, h3, h4⟩ | ⟨h1, h2, h3, e, he, ht⟩
        · exact ⟨Or.inl ⟨h1, h2, h4⟩, Or.inl h3⟩
        · refine ⟨Or.inr ⟨h1, h2, by rw [he]; rfl⟩,
            Or.inr ⟨h3, h1, e, he, ?_⟩⟩
          rcases ht with h | h
          · exact Or.inr (Or.inr (Or.inl h))
          · exact Or.inr (Or.inr (Or.inr h))
      · rw [if_neg hok]
        obtain ⟨h1, h2, h3, h4⟩ :=
          processErrorResponse_shape r.status r.body.errorCode elapsed
        exact ⟨Or.inr ⟨h1, h3, h4⟩, Or.inl h2⟩
    | error m =>
      simp only [hm]
      by_cases he : elapsed > 10000
      · rw [if_pos he]
        exact ⟨Or.inr ⟨rfl, rfl, rfl⟩, Or.inl rfl⟩
      · rw [if_neg he]
        exact ⟨Or.inr ⟨rfl, rfl, rfl⟩, Or.inl rfl⟩

/-- Counterexample to C5 as stated: the result of a validation-rejected
call carries no elapsed-time field at all, and neither does the
invalid-response outcome of a 2xx body. -/
theorem C5_counterexample :
    (generateRoast "" {} failingTransport 100 initialUsageStats).result.processingTimeMs = none ∧
    (generateRoast sampleImage {} invalidBodyTransport 100 initialUsageStats).result.processingTimeMs = none ∧
    (generateRoast sampleImage {} invalidBodyTransport 100 initialUsageStats).result.success = false := by
  refine ⟨by decide, by decide, by decide⟩

end Roastme

namespace Roastme

/-- Claim C6 (code bug): outside test contexts `detectBestStrategy`
selects the BackendProxy (`custom`) strategy unconditionally — the
liveness probe's outcome is never consulted, because the `async`
probe's unawaited Promise is truthy — so a failed probe does not fall
back to the RelayProxy strategy as specified. -/
theorem C6_strategy_ignores_probe :
    (∀ (probeOk : Bool) (hostname : String),
      detectBestStrategy false probeOk hostname = .custom) ∧
    detectBestStrategy false false "example.com" = .custom ∧
    detectBestStrategy false false "example.com" ≠ .corsRelay := by
  refine ⟨fun probeOk hostname => rfl, rfl, by decide⟩

/-- Bridge between `List.contains` on strings and membership. -/
theorem strContains_iff (l : List String) (a : String) :
    l.contains a = true ↔ a ∈ l := by
  simp [List.contains, List.elem_eq_mem]

/-- Supported MIME types are non-empty strings. -/
theorem supported_type_not_empty (t : String)
    (h : SUPPORTED_FORMATS.contains t = true) : t.isEmpty = false := by
  have hmem : t ∈ SUPPORTED_FORMATS := (strContains_iff _ _).mp h
  simp only [SUPPORTED_FORMATS, List.mem_cons, List.not_mem_nil, or_false] at hmem
  rcases hmem with h | h | h | h <;> subst h <;> decide

/-- Claim C7: `validateFile` accepts exactly the descriptors with
`0 < size ≤ 5 MiB` (inclusive at the boundary) and a supported MIME
type (given the header read succeeds); oversized files are rejected as
`file_size`, unsupported or missing/empty MIME types as `file_format`,
and zero-byte files as `file_invalid`. -/
theorem C7_validate (f : JsFile) (headerReadOk : Bool) :
    (f.size = 0 →
      validateFile f headerReadOk =
        ⟨false, some "file_invalid", some "File is empty or corrupted"⟩) ∧
    (MAX_FILE_SIZE_BYTES < f.size →
      validateFile f headerReadOk =
        ⟨false, some "file_size",
          some "File size exceeds 5MB limit. Please choose a smaller image."⟩) ∧
    (0 < f.size → f.size ≤ MAX_FILE_SIZE_BYTES →
      SUPPORTED_FORMATS.contains f.type = false →
      validateFile f headerReadOk =
        ⟨false, some "file_format",
          some "Please upload JPEG, PNG, GIF, or WebP images only."⟩) ∧
    (0 < f.size → f.size ≤ MAX_FILE_SIZE_BYTES →
      SUPPORTED_FORMATS.contains f.type = true → headerReadOk = true →
      validateFile f headerReadOk = ⟨true, none, none⟩) := by
  refine ⟨?_, ?_, ?_, ?_⟩
  · intro h0
    simp [validateFile, validateFileSize, h0]
  · intro hbig
    have h0 : ¬ f.size = 0 := by omega
    have hgt : f.size > MAX_FILE_SIZE_BYTES := hbig
    simp [validateFile, validateFileSize, h0, hgt]
  · intro hpos hle hfmt
    have h0 : ¬ f.size = 0 := by omega
    have hgt : ¬ f.size > MAX_FILE_SIZE_BYTES := by omega
    have hmem : f.type ∉ SUPPORTED_FORMATS := by
      intro hm
      rw [(strContains_iff _ _).mpr hm] at hfmt
      exact absurd hfmt (by decide)
    by_cases hemp : f.type.isEmpty
    · simp [validateFile, validateFileSize, validateFileFormat, h0, hgt, hemp]
    · simp [validateFile, validateFileSize, validateFileFormat, h0, hgt, hemp, hmem]
  · intro hpos hle hfmt hread
    have h0 : ¬ f.size = 0 := by omega
    have hgt : ¬ f.size > MAX_FILE_SIZE_BYTES := by omega
    have hemp : f.type.isEmpty = false := supported_type_not_empty f.type hfmt
    have hmem : f.type ∈ SUPPORTED_FORMATS := (strContains_iff _ _).mp hfmt
    subst hread
    simp [validateFile, validateFileSize, validateFileFormat, checkMagicNumbers,
      h0, hgt, hemp, hmem]

/-- Witness for C7: a 5 MiB JPEG exactly at the boundary is accepted; a
zero-byte file, an oversized file and an unsupported type are rejected
with the claimed kinds. -/
theorem C7_witness :
    validateFile ⟨"photo.jpg", 5242880, "image/jpeg"⟩ true = ⟨true, none, none⟩ ∧
    (validateFile ⟨"photo.jpg", 0, "image/jpeg"⟩ true).errType = some "file_invalid" ∧
    (validateFile ⟨"photo.jpg", 6291456, "image/jpeg"⟩ true).errType = some "file_size" ∧
    (validateFile ⟨"notes.txt", 100, "text/plain"⟩ true).errType = some "file_format" ∧
    (validateFile ⟨"mystery", 100, ""⟩ true).errType = some "file_format" :=
  have hboundary := (C7_validate ⟨"photo.jpg", 5242880, "image/jpeg"⟩ true).2.2.2
    (by decide) (by decide) (by decide) rfl
  have hzero := (C7_validate ⟨"photo.jpg", 0, "image/jpeg"⟩ true).1 rfl
  have hbig := (C7_validate ⟨"photo.jpg", 6291456, "image/jpeg"⟩ true).2.1 (by decide)
  have hfmt := (C7_validate ⟨"notes.txt", 100, "text/plain"⟩ true).2.2.1
    (by decide) (by decide) (by decide)
  have hnomime := (C7_validate ⟨"mystery", 100, ""⟩ true).2.2.1
    (by decide) (by decide) (by decide)
  ⟨hboundary, by rw [hzero], by rw [hbig], by rw [hfmt], by rw [hnomime]⟩

/-- Claim C8: a non-2xx transport response is classified by status —
429 to `rate_limit` with `retryAfterSeconds = 60`, 401 to `api_error`,
400 to `content_policy` exactly on the content-policy error code and
to `api_error` otherwise, 503 to `service_unavailable` with
`retryAfterSeconds = 30`, and anything else to a generic
`api_error`. -/
theorem C8_error_classification (img : String) (opts : RoastOptions)
    (transport : Transport) (elapsed : Nat) (stats : UsageStats) (r : ApiResponse)
    (hv : validateInput img = none)
    (h0 : transport (buildRequestBody img opts) 0 = .resp r)
    (hr : r.ok = false) :
    (r.status = 429 →
      (generateRoast img opts transport elapsed stats).result =
        ⟨false, none, some elapsed,
          some ⟨"rate_limit",
            "Rate limit exceeded. Please wait before trying again.", some 60⟩⟩) ∧
    (r.status = 401 →
      (generateRoast img opts transport elapsed stats).result =
        ⟨false, none, some elapsed,
          some ⟨"api_error", "Invalid API key provided", none⟩⟩) ∧
    (r.status = 400 → r.body.errorCode = some "content_policy_violation" →
      (generateRoast img opts transport elapsed stats).result =
        ⟨false, none, some elapsed,
          some ⟨"content_policy", "Content violates safety guidelines", none⟩⟩) ∧
    (r.status = 400 → r.body.errorCode ≠ some "content_policy_violation" →
      (generateRoast img opts transport elapsed stats).result =
        ⟨false, none, some elapsed,
          some ⟨"api_error", "Bad request to API", none⟩⟩) ∧
    (r.status = 503 →
      (generateRoast img opts transport elapsed stats).result =
        ⟨false, none, some elapsed,
          some ⟨"service_unavailable",
            "OpenAI service temporarily unavailable", some 30⟩⟩) ∧
    (r.status ≠ 429 → r.status ≠ 401 → r.status ≠ 400 → r.status ≠ 503 →
      (generateRoast img opts transport elapsed stats).result =
        ⟨false, none, some elapsed,
          some ⟨"api_error", "Unknown API error occurred", none⟩⟩) := by
  have hres : (generateRoast img opts transport elapsed stats).result =
      processErrorResponse r.status r.body.errorCode elapsed := by
    rw [generateRoast_resp img opts transport elapsed stats r hv h0,
      if_neg (by rw [hr]; exact Bool.false_ne_true)]
  rw [hres]
  refine ⟨?_, ?_, ?_, ?_, ?_, ?_⟩
  · intro h; rw [processErrorResponse, if_pos h]
  · intro h; rw [processErrorResponse, if_neg (by omega), if_pos h]
  · intro h hc
    rw [processErrorResponse, if_neg (by omega), if_neg (by omega), if_pos h,
      if_pos hc]
  · intro h hc
    rw [processErrorResponse, if_neg (by omega), if_neg (by omega), if_pos h,
      if_neg hc]
  · intro h
    rw [processErrorResponse, if_neg (by omega), if_neg (by omega),
      if_neg (by omega), if_pos h]
  · intro h1 h2 h3 h4
    rw [processErrorResponse, if_neg h1, if_neg h2, if_neg h3, if_neg h4]

/-- Witness for C8: HTTP 429 with an empty error body comes back as a
`rate_limit` failure with a 60-second retry hint, after the claimed
single attempt. -/
theorem C8_witness :
    (generateRoast sampleImage {} resp429Transport 100 initialUsageStats).result =
      ⟨false, none, some 100,
        some ⟨"rate_limit",
          "Rate limit exceeded. Please wait before trying again.", some 60⟩⟩ ∧
    (generateRoast sampleImage {} resp429Transport 100 initialUsageStats).attempts = 1 :=
  have h := C8_error_classification sampleImage {} resp429Transport 100
    initialUsageStats ⟨false, 429, {}⟩ (by decide) rfl rfl
  ⟨h.1 rfl, by decide⟩

end Roastme

namespace Roastme

/-- Claim C9 (amended): for a 2xx response body, a missing or empty
completion-text field yields an `invalid_response` failure, a
whitespace-only text yields an `empty_response` failure, and otherwise
the call succeeds with the trimmed text stripped of every `<...>` tag
sequence — the surrounding non-tag characters are exactly what
remains, no tag sequence survives, but the resulting text can be empty
when the content consisted only of tags. -/
theorem C9_success_sanitization (img : String) (opts : RoastOptions)
    (transport : Transport) (elapsed : Nat) (stats : UsageStats) (r : ApiResponse)
    (hv : validateInput img = none)
    (h0 : transport (buildRequestBody img opts) 0 = .resp r)
    (hok : r.ok = true) :
    (r.body.content = none →
      (generateRoast img opts transport elapsed stats).result =
        ⟨false, none, none,
          some ⟨"invalid_response", "Invalid API response format", none⟩⟩) ∧
    (∀ c, r.body.content = some c → c.isEmpty = true →
      (generateRoast img opts transport elapsed stats).result =
        ⟨false, none, none,
          some ⟨"invalid_response", "Invalid API response format", none⟩⟩) ∧
    (∀ c, r.body.content = some c → c.isEmpty = false →
      (jsTrim c).data.isEmpty = true →
      (generateRoast img opts transport elapsed stats).result =
        ⟨false, none, none,
          some ⟨"empty_response", "Empty roast content received", none⟩⟩) ∧
    (∀ c, r.body.content = some c → c.isEmpty = false →
      (jsTrim c).data.isEmpty = false →
      (generateRoast img opts transport elapsed stats).result =
        ⟨true, some (sanitizeText (jsTrim c)), some elapsed, none⟩ ∧
      hasLtGt (sanitizeText (jsTrim c)).data = false) := by
  have hres : (generateRoast img opts transport elapsed stats).result =
      processSuccessResponse r.body elapsed := by
    rw [generateRoast_resp img opts transport elapsed stats r hv h0, if_pos hok]
  rw [hres]
  refine ⟨?_, ?_, ?_, ?_⟩
  · intro hc
    rw [processSuccessResponse, hc]
  · intro c hc hemp
    rw [processSuccessResponse, hc]
    simp only [hemp, if_true]
  · intro c hc hemp htrim
    rw [processSuccessResponse, hc]
    simp only [hemp, htrim, Bool.false_eq_true, if_false, if_true]
  · intro c hc hemp htrim
    refine ⟨?_, hasLtGt_sanitizeText (jsTrim c)⟩
    rw [processSuccessResponse, hc]
    simp only [hemp, htrim, Bool.false_eq_true, if_false]

/-- Witness for C9: a completion text with markup between words comes
back as a success whose text keeps the words and drops the tags. -/
theorem C9_witness :
    (generateRoast sampleImage {} taggedTextTransport 100 initialUsageStats).result.success = true ∧
    (generateRoast sampleImage {} taggedTextTransport 100 initialUsageStats).result.roastText =
      some "Nice hat." ∧
    hasLtGt (sanitizeText (jsTrim "Nice <b>hat</b>.")).data = false :=
  have h := C9_success_sanitization sampleImage {} taggedTextTransport 100
    initialUsageStats ⟨true, 200, ⟨some "Nice <b>hat</b>.", some 5, none⟩⟩
    (by decide) rfl rfl
  have h4 := h.2.2.2 "Nice <b>hat</b>." rfl (by decide) (by decide)
  ⟨by rw [h4.1], by rw [h4.1]; decide, h4.2⟩

/-- Counterexample to C9 as stated: a 2xx body whose content is the
bare tag `"<b>"` is non-empty after trimming, so the code returns a
`Success` — but its text is the empty string, not a non-empty one. -/
theorem C9_counterexample :
    (generateRoast sampleImage {} tagOnlyTransport 100 initialUsageStats).result.success = true ∧
    (generateRoast sampleImage {} tagOnlyTransport 100 initialUsageStats).result.roastText =
      some "" := by
  refine ⟨by decide, by decide⟩

/-- Claim C10 (amended): the request `generate` sends is exactly
`buildRequestBody`: model and image echoed; `maxTokens` and
`temperature` take the caller's values when supplied and non-zero, and
the defaults (300 and 0.9) when omitted — or when the supplied value
is `0`, which the `||`-defaulting also replaces; a non-empty
`customPrompt` overrides the persona lookup, an omitted one defers to
it. -/
theorem C10_request_parameters (img : String) (opts : RoastOptions)
    (transport : Transport) (elapsed : Nat) (stats : UsageStats) :
    (validateInput img = none →
      (generateRoast img opts transport elapsed stats).requestBody =
        some (buildRequestBody img opts)) ∧
    (buildRequestBody img opts).model = OPENAI_MODEL ∧
    (buildRequestBody img opts).imageUrl = img ∧
    (opts.maxTokens = none → (buildRequestBody img opts).max_tokens = MAX_TOKENS) ∧
    (∀ m, opts.maxTokens = some m → m ≠ 0 →
      (buildRequestBody img opts).max_tokens = m) ∧
    (opts.maxTokens = some 0 → (buildRequestBody img opts).max_tokens = MAX_TOKENS) ∧
    (opts.temperature = none → (buildRequestBody img opts).temperature = TEMPERATURE) ∧
    (∀ q, opts.temperature = some q → q ≠ 0 →
      (buildRequestBody img opts).temperature = q) ∧
    (opts.temperature = some 0 →
      (buildRequestBody img opts).temperature = TEMPERATURE) ∧
    (∀ c, opts.customPrompt = some c → c.isEmpty = false →
      (buildRequestBody img opts).promptText = some c) ∧
    (opts.customPrompt = none →
      (buildRequestBody img opts).promptText = getPersonaPrompt opts.persona) := by
  refine ⟨?_, rfl, rfl, ?_, ?_, ?_, ?_, ?_, ?_, ?_, ?_⟩
  · intro hv
    rw [generateRoast_eq img opts transport elapsed stats hv]
    cases hm : (makeRequestWithRetry transport (buildRequestBody img opts)).result with
    | ok r =>
      simp only [hm]
      by_cases hok : r.ok = true
      · rw [if_pos hok]
      · rw [if_neg hok]
    | error m =>
      simp only [hm]
      by_cases he : elapsed > 10000
      · rw [if_pos he]
      · rw [if_neg he]
  · intro h; simp [buildRequestBody, jsOrNat, h]
  · intro m h hm; simp [buildRequestBody, jsOrNat, h, hm]
  · intro h; simp [buildRequestBody, jsOrNat, h]
  · intro h; simp [buildRequestBody, jsOrRat, h]
  · intro q h hq; simp [buildRequestBody, jsOrRat, h, hq]
  · intro h; simp [buildRequestBody, jsOrRat, h]
  · intro c h hc; simp [buildRequestBody, jsOrStr, h, hc]
  · intro h; simp [buildRequestBody, jsOrStr, h]

/-- The options used in the C10 witness: explicit non-zero generation
parameters and a non-empty custom prompt. -/
def explicitOpts : RoastOptions :=
  { persona := none, customPrompt := some "Roast politely",
    maxTokens := some 123, temperature := some 1 }

/-- Witness for C10: explicitly supplied non-zero `maxTokens` and
`temperature` and a non-empty `customPrompt` all land verbatim in the
built request, which is the one `generate` records. -/
theorem C10_witness :
    (buildRequestBody sampleImage explicitOpts).max_tokens = 123 ∧
    (buildRequestBody sampleImage explicitOpts).temperature = 1 ∧
    (buildRequestBody sampleImage explicitOpts).promptText = some "Roast politely" ∧
    (generateRoast sampleImage explicitOpts (successTransport 5) 100
        initialUsageStats).requestBody = some (buildRequestBody sampleImage explicitOpts) :=
  have h := C10_request_parameters sampleImage explicitOpts (successTransport 5)
    100 initialUsageStats
  ⟨h.2.2.2.2.1 123 rfl (by decide),
    h.2.2.2.2.2.2.2.1 1 rfl one_ne_zero,
    h.2.2.2.2.2.2.2.2.2.1 "Roast politely" rfl (by decide),
    h.1 (by decide)⟩

/-- Counterexample to C10 as stated: a caller-supplied `temperature` of
`0` is not used — the `||` default replaces it with 0.9 — and likewise
`maxTokens = 0` falls back to 300. -/
theorem C10_counterexample :
    (buildRequestBody sampleImage
      { persona := none, customPrompt := none, maxTokens := none,
        temperature := some 0 }).temperature = TEMPERATURE ∧
    TEMPERATURE ≠ 0 ∧
    (buildRequestBody sampleImage
      { persona := none, customPrompt := none, maxTokens := some 0,
        temperature := none }).max_tokens = 300 := by
  refine ⟨by simp [buildRequestBody, jsOrRat], ?_, by decide⟩
  rw [TEMPERATURE]
  norm_num

end Roastme
